import Mathlib

/-
Verification of the WFC driver src/simenv/assets/procgen/wfc/core/cpp/src/run_wfc.cpp.

The file run_wfc.cpp is the only source file of the repository that is
available; the WFC engine headers it includes (overlapping_wfc.hpp,
tiling_wfc.hpp, wfc.hpp, color.hpp, run_wfc.hpp) are not available, so the
engine is modelled from the spec as an abstract deterministic function (the
spec: a try either succeeds, yielding the decoded output grid, or fails, and
the core reports failure upward as an empty result; same seed and inputs give
bit-identical output).  All driver-level control flow (seed handling, retry
loops, sample loops, dispatch, error handling) is translated from the source.
-/

set_option maxHeartbeats 1000000
set_option maxRecDepth 4096

namespace RunWfc

/-- Modelled from the spec: color.hpp is not under src/.  Color is an opaque
pixel value with decidable equality; the driver never inspects its internal
structure. -/
abbrev Color : Type := Nat

/-- Shallow embedding of Array2D of Color (utils/array3D.hpp, not under src/):
a height, a width and a flat data vector.  The C++ constructor
Array2D(height, width) default-fills data; the driver only builds the values
Array2D(0, 0) (empty data) and grids whose data field is then reassigned. -/
structure Array2D where
  height : Nat
  width : Nat
  data : List Color
deriving DecidableEq, Repr

/-- Embeds array2d_from_vector: builds Array2D(height, width) and assigns its
data field to the input vector (no size check, as in the source). -/
def array2d_from_vector (input : List Color) (width : Nat) (height : Nat) : Array2D :=
  { height := height, width := width, data := input }

/-- The value of numeric_limits of unsigned max on the 32-bit unsigned used by
the source: 2 to the 32 minus 1. -/
def unsigned_max : Nat := 4294967295

/-- Embeds increment_seed: returns seed + 1 when seed is strictly below
unsigned_max - 1, and 0 otherwise. -/
def increment_seed (seed : Nat) : Nat :=
  if seed < unsigned_max - 1 then seed + 1 else 0

/-- The environment outside the arguments of run_wfc_cpp that the source can
observe: the two system_clock reads (in milliseconds) and the OS entropy that
get_random_seed would draw.  run_wfc_cpp reads the clock only for the verbose
timing line. -/
structure Env where
  startTime : Nat
  endTime : Nat
  osRandom : Nat

/-- Embeds get_random_seed: draws from random_device (OS entropy), modelled as
the osRandom component of the environment.  It is never called by
run_wfc_cpp. -/
def get_random_seed (env : Env) : Nat :=
  env.osRandom

/-- Embeds the Symmetry enum of the tiled front-end. -/
inductive Symmetry where
  | X
  | T
  | I
  | L
  | backslash
  | P
deriving DecidableEq, Repr

/-- Embeds to_symmetry: maps a symmetry name onto the Symmetry enum and throws
a descriptive message on any other name (the thrown C++ string concatenates
the name and "is an invalid Symmetry" with no separating space, as in the
source). -/
def to_symmetry (symmetry_name : String) : Except String Symmetry :=
  if symmetry_name = "X" then Except.ok Symmetry.X
  else if symmetry_name = "T" then Except.ok Symmetry.T
  else if symmetry_name = "I" then Except.ok Symmetry.I
  else if symmetry_name = "L" then Except.ok Symmetry.L
  else if symmetry_name = "\\" then Except.ok Symmetry.backslash
  else if symmetry_name = "P" then Except.ok Symmetry.P
  else Except.error (symmetry_name ++ "is an invalid Symmetry")

/-- Embeds PyTile (run_wfc.hpp, not under src/): fields inferred from their
uses in run_wfc.cpp (pytile.tile, pytile.size, pytile.name, pytile.symmetry,
pytile.weight).  The weight is a C++ double that is only copied, never
computed with, in this file; it is modelled as an opaque value. -/
structure PyTile where
  tile : List Color
  size : Nat
  name : String
  symmetry : String
  weight : Nat
deriving DecidableEq, Repr

/-- Embeds Tile of Color (tiling_wfc.hpp, not under src/): a square image, a
symmetry class and a weight, exactly the three constructor arguments used by
pytile_to_tile. -/
structure Tile where
  image : Array2D
  symmetry : Symmetry
  weight : Nat
deriving DecidableEq, Repr

/-- Embeds Neighbor (run_wfc.hpp, not under src/): fields inferred from their
uses in run_wfc.cpp (neighbor.left, neighbor.left_or, neighbor.right,
neighbor.right_or); the orientations are C++ ints. -/
structure Neighbor where
  left : String
  left_or : Int
  right : String
  right_or : Int
deriving DecidableEq, Repr

/-- Embeds pytile_to_tile: builds the square image from the flat pixel vector
and converts the symmetry name; a throw from to_symmetry propagates. -/
def pytile_to_tile (pytile : PyTile) : Except String Tile :=
  match to_symmetry pytile.symmetry with
  | Except.error e => Except.error e
  | Except.ok s =>
      Except.ok { image := array2d_from_vector pytile.tile pytile.size pytile.size,
                  symmetry := s, weight := pytile.weight }

/-- Embeds OverlappingWFCOptions (overlapping_wfc.hpp, not under src/), with
the fields in the order of the brace initializer in read_overlapping_instance:
periodic_input, periodic_output, out_height, out_width, symmetry, ground,
pattern_size. -/
structure OverlappingWFCOptions where
  periodic_input : Bool
  periodic_output : Bool
  out_height : Nat
  out_width : Nat
  symmetry : Nat
  ground : Bool
  pattern_size : Nat
deriving DecidableEq, Repr

/-- Modelled from the spec: overlapping_wfc.hpp is not under src/.  An
OverlappingWFC instance is determined by the input map, the options and the
seed, and run() deterministically returns the decoded output grid on success
or a 0 by 0 grid on failure. -/
abbrev OverlappingEngine : Type := Array2D → OverlappingWFCOptions → Nat → Array2D

/-- Modelled from the spec: tiling_wfc.hpp is not under src/.  A TilingWFC
instance is determined by the tiles, the neighbor id tuples, the output
height and width, the periodic_output option and the seed, and run()
deterministically returns the decoded output grid on success or a 0 by 0
grid on failure. -/
abbrev TilingEngine : Type :=
  List Tile → List (Nat × Int × Nat × Int) → Nat → Nat → Bool → Nat → Array2D

/-- How the C++ call can end: a normal return carrying the flat result vector,
an exception propagating out of the function (thrown), or std::terminate
raised because an exception escaped a noexcept function (terminated). -/
inductive CallOut where
  | ok (vec : List Color)
  | thrown (msg : String)
  | terminated (msg : String)
deriving DecidableEq, Repr

/-- Observable outcome of one driver call: the outcome, the lines printed on
the diagnostic channel, and (as ghost instrumentation for the statements
below) the list, per sample in order, of the seeds passed to the engine. -/
structure CallResult where
  out : CallOut
  logs : List String
  attempts : List (List Nat)
deriving DecidableEq, Repr

/-- The success test the driver applies to an engine result:
result.width > 0 or result.height > 0. -/
def succeeded (r : Array2D) : Bool :=
  decide (0 < r.width) || decide (0 < r.height)

/-- The warning line both sample loops print for a failed sample. -/
def warn_msg : String := "WARNING: Failed to generate one of the samples!"

/-- State after the inner retry loop of one sample: the current values of the
seed and result variables, the colors appended to results_vec, the printed
lines, the ghost trace of seeds passed to the engine, and the finished
flag. -/
structure TryState where
  seed : Nat
  result : Array2D
  outData : List Color
  logs : List String
  trace : List Nat
  finished : Bool
deriving DecidableEq, Repr

/-- Embeds the inner retry loop shared (up to the retry bound and the verbose
failure line) by read_overlapping_instance and read_simpletiled_instance:
for (test = 0; test < bound and not finished; test = test + 1) with
seed = increment_seed(seed) when test > 0, one engine run per iteration, and
on success append the result data and stop.  The first argument counts the
remaining iterations (bound - test). -/
def tryLoop (run : Nat → Array2D) (failMsg : String) (verbose : Bool) :
    Nat → Nat → Nat → Array2D → TryState
  | 0, _, seed, result =>
      { seed := seed, result := result, outData := [], logs := [], trace := [],
        finished := false }
  | Nat.succ fuel, test, seed, result =>
      let seed1 := if 0 < test then increment_seed seed else seed
      let r := run seed1
      if succeeded r then
        { seed := seed1, result := r, outData := r.data,
          logs := if verbose then ["Finished!"] else [],
          trace := [seed1], finished := true }
      else
        let rest := tryLoop run failMsg verbose fuel (test + 1) seed1 r
        { rest with
          logs := (if verbose then [failMsg] else []) ++ rest.logs,
          trace := seed1 :: rest.trace }

/-- State after the outer sample loop: the current seed and result variables,
the accumulated results_vec, the printed lines, and the ghost per-sample seed
traces. -/
structure SamplesState where
  seed : Nat
  result : Array2D
  results_vec : List Color
  logs : List String
  attempts : List (List Nat)
deriving DecidableEq, Repr

/-- Embeds the outer sample loop shared by both front-ends: for each of the
nb_samples samples, run the inner retry loop, then print the per-sample
closing line: the verbose "Finished one sample!" when the result variable
holds a successful grid, and the warning line otherwise.  The seed and result
variables persist across samples, as in the source. -/
def sampleLoop (run : Nat → Array2D) (failMsg : String) (verbose : Bool) (bound : Nat) :
    Nat → Nat → Array2D → SamplesState
  | 0, seed, result =>
      { seed := seed, result := result, results_vec := [], logs := [], attempts := [] }
  | Nat.succ n, seed, result =>
      let t := tryLoop run failMsg verbose bound 0 seed result
      let post :=
        if succeeded t.result then (if verbose then ["Finished one sample!"] else [])
        else [warn_msg]
      let rest := sampleLoop run failMsg verbose bound n t.seed t.result
      { seed := rest.seed, result := rest.result,
        results_vec := t.outData ++ rest.results_vec,
        logs := t.logs ++ post ++ rest.logs,
        attempts := t.trace :: rest.attempts }

/-- Embeds read_overlapping_instance: the verbose opening line, the
empty-exemplar guard (width = 0 and height = 0 on the loaded map), the
options brace initializer, and the sample loop with retry bound nb_tries and
verbose failure line "Failed to generate!". -/
def read_overlapping_instance (engine : OverlappingEngine) (seed : Nat)
    (width : Nat) (height : Nat) (periodic_output : Bool) (N : Nat)
    (periodic_input : Bool) (ground : Bool) (nb_samples : Nat) (symmetry : Nat)
    (input_img : List Color) (input_width : Nat) (input_height : Nat)
    (verbose : Bool) (nb_tries : Nat) : CallResult :=
  let logs0 := if verbose then ["Started!"] else []
  let m := array2d_from_vector input_img input_width input_height
  if m.width = 0 ∧ m.height = 0 then
    { out := CallOut.thrown "Error while loading the map to sample from.",
      logs := logs0, attempts := [] }
  else
    let options : OverlappingWFCOptions :=
      { periodic_input := periodic_input, periodic_output := periodic_output,
        out_height := height, out_width := width, symmetry := symmetry,
        ground := ground, pattern_size := N }
    let st := sampleLoop (fun s => engine m options s) "Failed to generate!" verbose
      nb_tries nb_samples seed { height := 0, width := 0, data := [] }
    { out := CallOut.ok st.results_vec, logs := logs0 ++ st.logs,
      attempts := st.attempts }

/-- Lookup in the tiles_id map, modelling unordered_map find and operator
access: the value bound to the key, if any. -/
def map_lookup : List (String × Nat) → String → Option Nat
  | [], _ => none
  | (k, v) :: rest, key => if key = k then some v else map_lookup rest key

/-- Embeds one tiles_id.insert call: unordered_map insert leaves the map
unchanged when the key is already bound. -/
def tiles_id_insert (m : List (String × Nat)) (name : String) (id : Nat) :
    List (String × Nat) :=
  match map_lookup m name with
  | some _ => m
  | none => m ++ [(name, id)]

/-- Embeds the first loop of read_simpletiled_instance restricted to the
tiles_id map: insert each pytile name with the running id, then increment
the id. -/
def build_tiles_id_aux (m : List (String × Nat)) (id : Nat) :
    List PyTile → List (String × Nat)
  | [] => m
  | t :: ts => build_tiles_id_aux (tiles_id_insert m t.name id) (id + 1) ts

/-- The tiles_id map built by read_simpletiled_instance, starting from the
empty map and id 0. -/
def build_tiles_id (pytiles : List PyTile) : List (String × Nat) :=
  build_tiles_id_aux [] 0 pytiles

/-- Embeds the first loop of read_simpletiled_instance restricted to the
tiles vector: push pytile_to_tile of each pytile; a throw from
pytile_to_tile propagates out of the loop. -/
def build_tiles : List PyTile → Except String (List Tile)
  | [] => Except.ok []
  | t :: ts =>
      match pytile_to_tile t with
      | Except.error e => Except.error e
      | Except.ok tile =>
          match build_tiles ts with
          | Except.error e => Except.error e
          | Except.ok rest => Except.ok (tile :: rest)

/-- Embeds the neighbors loop of read_simpletiled_instance: an entry whose
left or right name is not bound in tiles_id is skipped with continue;
otherwise the two ids and the two orientations are pushed as a tuple. -/
def build_neighbors_ids (tilesId : List (String × Nat)) :
    List Neighbor → List (Nat × Int × Nat × Int)
  | [] => []
  | n :: ns =>
      match map_lookup tilesId n.left with
      | none => build_neighbors_ids tilesId ns
      | some id1 =>
          match map_lookup tilesId n.right with
          | none => build_neighbors_ids tilesId ns
          | some id2 => (id1, n.left_or, id2, n.right_or) :: build_neighbors_ids tilesId ns

/-- Embeds read_simpletiled_instance: the verbose opening line, the tile and
tiles_id construction, the neighbor translation, and the sample loop with the
hard-coded retry bound 10 and verbose failure line "Failed!".  The function
is declared noexcept in the source, so an exception from pytile_to_tile
(raised by to_symmetry) calls std::terminate instead of propagating; this is
the terminated outcome.  The nb_tries argument is accepted and never used, as
in the source. -/
def read_simpletiled_instance (engine : TilingEngine) (seed : Nat) (width : Nat)
    (height : Nat) (nb_samples : Nat) (periodic_output : Bool) (verbose : Bool)
    (nb_tries : Nat) (pytiles : List PyTile) (neighbors : List Neighbor) : CallResult :=
  let logs0 := if verbose then ["Started!"] else []
  match build_tiles pytiles with
  | Except.error e =>
      { out := CallOut.terminated e, logs := logs0, attempts := [] }
  | Except.ok tiles =>
      let tilesId := build_tiles_id pytiles
      let neighborsIds := build_neighbors_ids tilesId neighbors
      let st := sampleLoop
        (fun s => engine tiles neighborsIds height width periodic_output s)
        "Failed!" verbose 10 nb_samples seed { height := 0, width := 0, data := [] }
      { out := CallOut.ok st.results_vec, logs := logs0 ++ st.logs,
        attempts := st.attempts }

/-- The verbose timing line printed at the end of run_wfc_cpp, from the two
clock reads of the environment (elapsed milliseconds, printed as whole
seconds and milliseconds modulo 1000). -/
def elapsed_line (env : Env) : String :=
  "All samples done in " ++ toString ((env.endTime - env.startTime) / 1000) ++
    "s, " ++ toString ((env.endTime - env.startTime) % 1000) ++ "ms.\n"

/-- Appends the verbose timing line of run_wfc_cpp to a normally returning
call; a thrown or terminated call never reaches the timing code. -/
def with_elapsed (env : Env) (verbose : Bool) (r : CallResult) : CallResult :=
  match r.out with
  | CallOut.ok _ =>
      { r with logs := r.logs ++ (if verbose then [elapsed_line env] else []) }
  | _ => r

/-- Embeds run_wfc_cpp: dispatch on sample_type (0 runs the tiled front-end,
1 runs the overlapping front-end, anything else throws the usage error), with
the timing line printed before a normal return. -/
def run_wfc_cpp (env : Env) (oEngine : OverlappingEngine) (tEngine : TilingEngine)
    (seed : Nat) (width : Nat) (height : Nat) (sample_type : Int)
    (periodic_output : Bool) (N : Nat) (periodic_input : Bool) (ground : Bool)
    (nb_samples : Nat) (symmetry : Nat) (input_img : List Color)
    (input_width : Nat) (input_height : Nat) (verbose : Bool) (nb_tries : Nat)
    (tiles : List PyTile) (neighbors : List Neighbor) : CallResult :=
  if sample_type = 0 then
    with_elapsed env verbose
      (read_simpletiled_instance tEngine seed width height nb_samples
        periodic_output verbose nb_tries tiles neighbors)
  else if sample_type = 1 then
    with_elapsed env verbose
      (read_overlapping_instance oEngine seed width height periodic_output N
        periodic_input ground nb_samples symmetry input_img input_width
        input_height verbose nb_tries)
  else
    { out := CallOut.thrown "choose 0 (simpletiled) or 1 (overlapping) on sample_type",
      logs := [], attempts := [] }

/-- The run function the tiled sample loop calls: the engine applied to the
built tiles, the translated neighbor tuples, the output dimensions and the
periodicity flag. -/
def tiled_run (engine : TilingEngine) (pytiles : List PyTile)
    (neighbors : List Neighbor) (height : Nat) (width : Nat)
    (periodic_output : Bool) : Nat → Array2D :=
  fun s => engine ((build_tiles pytiles).toOption.getD [])
    (build_neighbors_ids (build_tiles_id pytiles) neighbors)
    height width periodic_output s

/-- The run function the overlapping sample loop calls: the engine applied to
the loaded input map and the options record. -/
def overlapping_run (engine : OverlappingEngine) (input_img : List Color)
    (input_width : Nat) (input_height : Nat) (periodic_input : Bool)
    (periodic_output : Bool) (height : Nat) (width : Nat) (symmetry : Nat)
    (ground : Bool) (N : Nat) : Nat → Array2D :=
  fun s => engine (array2d_from_vector input_img input_width input_height)
    { periodic_input := periodic_input, periodic_output := periodic_output,
      out_height := height, out_width := width, symmetry := symmetry,
      ground := ground, pattern_size := N } s

/-- The pixel data a sample contributes to the output: the data of the first
successful try of its trace, and nothing when no try succeeded. -/
def sampleContrib (run : Nat → Array2D) (t : List Nat) : List Color :=
  match t.find? (fun s => succeeded (run s)) with
  | some s => (run s).data
  | none => []

/-- Follows the claim words: whether a name occurs among the supplied tiles
names. -/
def has_name : List String → String → Bool
  | [], _ => false
  | x :: xs, key => if key = x then true else has_name xs key

/-- Follows the claim words: the tile id of a name, the position of its first
occurrence among the supplied tiles names. -/
def first_index : List String → String → Nat
  | [], _ => 0
  | x :: xs, key => if key = x then 0 else first_index xs key + 1

/-- Formalises the claim sentence for C6: neighbor entries with an unknown
left or right name are dropped; the remaining entries are translated to
tile-id tuples in order, keeping the two orientations. -/
def neighbors_ids_spec (pytiles : List PyTile) (neighbors : List Neighbor) :
    List (Nat × Int × Nat × Int) :=
  (neighbors.filter fun n =>
      has_name (pytiles.map PyTile.name) n.left &&
      has_name (pytiles.map PyTile.name) n.right).map
    fun n =>
      (first_index (pytiles.map PyTile.name) n.left, n.left_or,
       first_index (pytiles.map PyTile.name) n.right, n.right_or)

theorem with_elapsed_out (env : Env) (verbose : Bool) (r : CallResult) :
    (with_elapsed env verbose r).out = r.out := by
  unfold with_elapsed
  cases h : r.out <;> simp [h]

theorem tryLoop_trace_length (run : Nat → Array2D) (failMsg : String)
    (verbose : Bool) :
    ∀ (fuel test seed : Nat) (result : Array2D),
      (tryLoop run failMsg verbose fuel test seed result).trace.length ≤ fuel := by
  intro fuel
  induction fuel with
  | zero => intro test seed result; simp [tryLoop]
  | succ n ih =>
      intro test seed result
      simp only [tryLoop]
      by_cases h : succeeded (run (if 0 < test then increment_seed seed else seed)) = true
      · simp [h]
      · rw [Bool.not_eq_true] at h
        simp only [h, Bool.false_eq_true, ite_false, List.length_cons]
        exact Nat.succ_le_succ (ih (test + 1) _ _)

theorem tryLoop_trace_head (run : Nat → Array2D) (failMsg : String)
    (verbose : Bool) :
    ∀ (fuel seed : Nat) (result : Array2D), 0 < fuel →
      (tryLoop run failMsg verbose fuel 0 seed result).trace.head? = some seed := by
  intro fuel seed result hfuel
  cases fuel with
  | zero => exact absurd hfuel (by simp)
  | succ n =>
      simp only [tryLoop, lt_self_iff_false, ite_false]
      by_cases h : succeeded (run seed) = true
      · simp [h]
      · rw [Bool.not_eq_true] at h
        simp [h]

theorem tryLoop_trace_ne_nil (run : Nat → Array2D) (failMsg : String)
    (verbose : Bool) :
    ∀ (fuel test seed : Nat) (result : Array2D), 0 < fuel →
      (tryLoop run failMsg verbose fuel test seed result).trace ≠ [] := by
  intro fuel test seed result hfuel
  cases fuel with
  | zero => exact absurd hfuel (by simp)
  | succ n =>
      simp only [tryLoop]
      by_cases h : succeeded (run (if 0 < test then increment_seed seed else seed)) = true
      · simp [h]
      · rw [Bool.not_eq_true] at h
        simp [h]

theorem tryLoop_seed_getLastD (run : Nat → Array2D) (failMsg : String)
    (verbose : Bool) :
    ∀ (fuel test seed : Nat) (result : Array2D),
      (tryLoop run failMsg verbose fuel test seed result).seed =
        (tryLoop run failMsg verbose fuel test seed result).trace.getLastD seed := by
  intro fuel
  induction fuel with
  | zero => intro test seed result; simp [tryLoop]
  | succ n ih =>
      intro test seed result
      simp only [tryLoop]
      by_cases h : succeeded (run (if 0 < test then increment_seed seed else seed)) = true
      · simp [h, List.getLastD]
      · rw [Bool.not_eq_true] at h
        simp only [h, Bool.false_eq_true, ite_false, List.getLastD_cons]
        exact ih (test + 1) _ _

theorem tryLoop_dropLast_fail (run : Nat → Array2D) (failMsg : String)
    (verbose : Bool) :
    ∀ (fuel test seed : Nat) (result : Array2D),
      ∀ s ∈ (tryLoop run failMsg verbose fuel test seed result).trace.dropLast,
        succeeded (run s) = false := by
  intro fuel
  induction fuel with
  | zero => intro test seed result s hs; simp [tryLoop] at hs
  | succ n ih =>
      intro test seed result s hs
      simp only [tryLoop] at hs
      by_cases h : succeeded (run (if 0 < test then increment_seed seed else seed)) = true
      · simp [h] at hs
      · rw [Bool.not_eq_true] at h
        simp only [h, Bool.false_eq_true, ite_false] at hs
        rcases hrt : (tryLoop run failMsg verbose n (test + 1)
            (if 0 < test then increment_seed seed else seed)
            (run (if 0 < test then increment_seed seed else seed))).trace with _ | ⟨a, l⟩
        · rw [hrt] at hs
          simp at hs
        · rw [hrt] at hs
          rw [List.dropLast_cons₂] at hs
          rcases List.mem_cons.mp hs with h1 | h2
          · rw [h1]; exact h
          · have := ih (test + 1) (if 0 < test then increment_seed seed else seed)
              (run (if 0 < test then increment_seed seed else seed)) s
            rw [hrt] at this
            exact this h2

theorem tryLoop_main (run : Nat → Array2D) (failMsg : String) (verbose : Bool) :
    ∀ (fuel test seed : Nat) (result : Array2D),
      (fuel = 0 → succeeded result = false) →
      succeeded (tryLoop run failMsg verbose fuel test seed result).result =
        (tryLoop run failMsg verbose fuel test seed result).trace.any
          (fun s => succeeded (run s)) ∧
      (tryLoop run failMsg verbose fuel test seed result).outData =
        sampleContrib run (tryLoop run failMsg verbose fuel test seed result).trace := by
  intro fuel
  induction fuel with
  | zero =>
      intro test seed result h
      simp [tryLoop, sampleContrib, h rfl]
  | succ n ih =>
      intro test seed result _
      simp only [tryLoop]
      by_cases h : succeeded (run (if 0 < test then increment_seed seed else seed)) = true
      · simp [h, sampleContrib, List.find?]
      · rw [Bool.not_eq_true] at h
        simp only [h, Bool.false_eq_true, ite_false]
        have := ih (test + 1) (if 0 < test then increment_seed seed else seed)
          (run (if 0 < test then increment_seed seed else seed)) (fun _ => h)
        constructor
        · simp [this.1, h]
        · simp [this.2, sampleContrib, List.find?, h]

theorem tryLoop_not_mem_logs (run : Nat → Array2D) (failMsg : String)
    (verbose : Bool) (msg : String) (h1 : msg ≠ "Finished!") (h2 : msg ≠ failMsg) :
    ∀ (fuel test seed : Nat) (result : Array2D),
      msg ∉ (tryLoop run failMsg verbose fuel test seed result).logs := by
  intro fuel
  induction fuel with
  | zero => intro test seed result; simp [tryLoop]
  | succ n ih =>
      intro test seed result
      simp only [tryLoop]
      by_cases h : succeeded (run (if 0 < test then increment_seed seed else seed)) = true
      · cases verbose <;> simp [h, h1]
      · rw [Bool.not_eq_true] at h
        cases verbose <;> simp [h, h1, h2, ih (test + 1)]

theorem sampleLoop_attempts_length (run : Nat → Array2D) (failMsg : String)
    (verbose : Bool) (bound : Nat) :
    ∀ (n seed : Nat) (result : Array2D),
      (sampleLoop run failMsg verbose bound n seed result).attempts.length = n := by
  intro n
  induction n with
  | zero => intro seed result; simp [sampleLoop]
  | succ m ih => intro seed result; simp [sampleLoop, ih]

theorem sampleLoop_attempts_bound_zero (run : Nat → Array2D) (failMsg : String)
    (verbose : Bool) :
    ∀ (n seed : Nat) (result : Array2D),
      (sampleLoop run failMsg verbose 0 n seed result).attempts =
        List.replicate n [] := by
  intro n
  induction n with
  | zero => intro seed result; simp [sampleLoop]
  | succ m ih => intro seed result; simp [sampleLoop, tryLoop, ih, List.replicate]

theorem sampleLoop_first_head (run : Nat → Array2D) (failMsg : String)
    (verbose : Bool) (bound : Nat) :
    ∀ (n seed : Nat) (result : Array2D), 0 < bound → 0 < n →
      ((sampleLoop run failMsg verbose bound n seed result).attempts.getD 0 []).head? =
        some seed := by
  intro n seed result hb hn
  cases n with
  | zero => exact absurd hn (by simp)
  | succ m =>
      simp only [sampleLoop, List.getD_cons_zero]
      exact tryLoop_trace_head run failMsg verbose bound seed result hb

theorem sampleLoop_chain (run : Nat → Array2D) (failMsg : String)
    (verbose : Bool) (bound : Nat) :
    ∀ (n seed : Nat) (result : Array2D) (i : Nat), 0 < bound → i + 1 < n →
      ((sampleLoop run failMsg verbose bound n seed result).attempts.getD (i + 1) []).head? =
        some (((sampleLoop run failMsg verbose bound n seed result).attempts.getD i []).getLastD 0) := by
  intro n
  induction n with
  | zero => intro seed result i _ hi; exact absurd hi (by omega)
  | succ m ih =>
      intro seed result i hb hi
      simp only [sampleLoop]
      cases i with
      | zero =>
          simp only [List.getD_cons_succ, List.getD_cons_zero]
          have hm : 0 < m := by omega
          rw [sampleLoop_first_head run failMsg verbose bound m _ _ hb hm]
          have hseed := tryLoop_seed_getLastD run failMsg verbose bound 0 seed result
          have hne := tryLoop_trace_ne_nil run failMsg verbose bound 0 seed result hb
          rcases htr : (tryLoop run failMsg verbose bound 0 seed result).trace with _ | ⟨a, l⟩
          · exact absurd htr hne
          · rw [htr] at hseed
            rw [hseed]
            simp [List.getLastD]
      | succ j =>
          simp only [List.getD_cons_succ]
          exact ih _ _ j hb (by omega)

theorem sampleLoop_tries (run : Nat → Array2D) (failMsg : String)
    (verbose : Bool) (bound : Nat) :
    ∀ (n seed : Nat) (result : Array2D),
      ∀ t ∈ (sampleLoop run failMsg verbose bound n seed result).attempts,
        t.length ≤ bound ∧
          t.dropLast.all (fun s => !(succeeded (run s))) = true := by
  intro n
  induction n with
  | zero => intro seed result t ht; simp [sampleLoop] at ht
  | succ m ih =>
      intro seed result t ht
      simp only [sampleLoop, List.mem_cons] at ht
      rcases ht with h | h
      · subst h
        refine ⟨tryLoop_trace_length run failMsg verbose bound 0 seed result,
          List.all_eq_true.mpr ?_⟩
        intro s hs
        have hf := tryLoop_dropLast_fail run failMsg verbose bound 0 seed result s hs
        simp [hf]
      · exact ih _ _ t h

theorem sampleLoop_main (run : Nat → Array2D) (failMsg : String) (verbose : Bool)
    (bound : Nat) (hw : warn_msg ≠ failMsg) :
    ∀ (n seed : Nat) (result : Array2D), (bound = 0 → succeeded result = false) →
      (sampleLoop run failMsg verbose bound n seed result).results_vec =
        ((sampleLoop run failMsg verbose bound n seed result).attempts.map
          (sampleContrib run)).flatten ∧
      (sampleLoop run failMsg verbose bound n seed result).logs.count warn_msg =
        (sampleLoop run failMsg verbose bound n seed result).attempts.countP
          (fun t => !(t.any (fun s => succeeded (run s)))) := by
  intro n
  induction n with
  | zero => intro seed result h; simp [sampleLoop]
  | succ m ih =>
      intro seed result h
      have htry := tryLoop_main run failMsg verbose bound 0 seed result h
      have hnext : bound = 0 →
          succeeded (tryLoop run failMsg verbose bound 0 seed result).result = false := by
        intro hb
        subst hb
        simpa [tryLoop] using h rfl
      have hrest := ih (tryLoop run failMsg verbose bound 0 seed result).seed
        (tryLoop run failMsg verbose bound 0 seed result).result hnext
      have hlogs : (tryLoop run failMsg verbose bound 0 seed result).logs.count warn_msg = 0 :=
        List.count_eq_zero.mpr
          (tryLoop_not_mem_logs run failMsg verbose warn_msg (by decide) hw bound 0 seed result)
      constructor
      · simp only [sampleLoop, List.map_cons, List.flatten_cons]
        rw [htry.2, hrest.1]
      · simp only [sampleLoop]
        rw [List.count_append, List.count_append, hlogs, List.countP_cons, hrest.2]
        by_cases hs : succeeded (tryLoop run failMsg verbose bound 0 seed result).result = true
        · have hany : ((tryLoop run failMsg verbose bound 0 seed result).trace.any
              (fun s => succeeded (run s))) = true := by rw [← htry.1]; exact hs
          rw [hs]
          have hc1 : List.count warn_msg ["Finished one sample!"] = 0 := by decide
          cases verbose <;> simp [hany, hc1]
        · rw [Bool.not_eq_true] at hs
          have hany : ((tryLoop run failMsg verbose bound 0 seed result).trace.any
              (fun s => succeeded (run s))) = false := by rw [← htry.1]; exact hs
          rw [hs]
          have hc2 : List.count warn_msg [warn_msg] = 1 := by simp
          simp [hany, hc2]
          omega

theorem map_lookup_append_single (m : List (String × Nat)) (k : String) (v : Nat)
    (key : String) :
    map_lookup (m ++ [(k, v)]) key =
      match map_lookup m key with
      | some x => some x
      | none => if key = k then some v else none := by
  induction m with
  | nil => simp [map_lookup]
  | cons a rest ih =>
      rcases a with ⟨ka, va⟩
      by_cases hk : key = ka <;> simp [map_lookup, hk, ih]

theorem map_lookup_insert (m : List (String × Nat)) (k : String) (v : Nat)
    (key : String) :
    map_lookup (tiles_id_insert m k v) key =
      match map_lookup m key with
      | some x => some x
      | none => if key = k then some v else none := by
  unfold tiles_id_insert
  cases h : map_lookup m k with
  | some x =>
      cases h2 : map_lookup m key with
      | some y => simp
      | none =>
          by_cases hk : key = k
          · rw [hk] at h2; rw [h2] at h; exact absurd h (by simp)
          · simp [hk]
  | none => exact map_lookup_append_single m k v key

theorem map_lookup_build_aux (ts : List PyTile) :
    ∀ (m : List (String × Nat)) (id : Nat) (key : String),
      map_lookup (build_tiles_id_aux m id ts) key =
        match map_lookup m key with
        | some v => some v
        | none =>
            if has_name (ts.map PyTile.name) key
            then some (id + first_index (ts.map PyTile.name) key)
            else none := by
  induction ts with
  | nil =>
      intro m id key
      cases h : map_lookup m key <;> simp [build_tiles_id_aux, h, has_name]
  | cons t rest ih =>
      intro m id key
      simp only [build_tiles_id_aux]
      rw [ih (tiles_id_insert m t.name id) (id + 1) key, map_lookup_insert]
      cases h : map_lookup m key with
      | some v => simp
      | none =>
          by_cases hk : key = t.name
          · simp [hk, has_name, first_index]
          · cases hn : has_name (rest.map PyTile.name) key
            · simp [hk, has_name, first_index, hn]
            · simp only [List.map_cons, hk, if_false, ite_false, has_name, first_index, hn]
              simp
              omega

theorem map_lookup_build_tiles_id (pytiles : List PyTile) (key : String) :
    map_lookup (build_tiles_id pytiles) key =
      if has_name (pytiles.map PyTile.name) key
      then some (first_index (pytiles.map PyTile.name) key)
      else none := by
  unfold build_tiles_id
  rw [map_lookup_build_aux pytiles [] 0 key]
  simp [map_lookup]

theorem build_tiles_error_of_mem (pytiles : List PyTile) (p : PyTile) (e : String)
    (hp : p ∈ pytiles) (he : to_symmetry p.symmetry = Except.error e) :
    ∃ msg, build_tiles pytiles = Except.error msg := by
  induction pytiles with
  | nil => simp at hp
  | cons t rest ih =>
      rcases List.mem_cons.mp hp with h | h
      · refine ⟨e, ?_⟩
        subst h
        simp [build_tiles, pytile_to_tile, he]
      · cases h1 : pytile_to_tile t with
        | error e2 => exact ⟨e2, by simp [build_tiles, h1]⟩
        | ok tile =>
            rcases ih h with ⟨msg, hmsg⟩
            exact ⟨msg, by simp [build_tiles, h1, hmsg]⟩

theorem replicate_getD_nil (n i : Nat) :
    (List.replicate n ([] : List Nat)).getD i [] = [] := by
  induction n generalizing i with
  | zero => simp
  | succ m ih =>
      cases i with
      | zero => simp [List.replicate]
      | succ j => simp [List.replicate, ih]

theorem read_overlapping_unfold (engine : OverlappingEngine) (seed : Nat)
    (width : Nat) (height : Nat) (periodic_output : Bool) (N : Nat)
    (periodic_input : Bool) (ground : Bool) (nb_samples : Nat) (symmetry : Nat)
    (input_img : List Color) (input_width : Nat) (input_height : Nat)
    (verbose : Bool) (nb_tries : Nat)
    (hg : ¬(input_width = 0 ∧ input_height = 0)) :
    read_overlapping_instance engine seed width height periodic_output N
        periodic_input ground nb_samples symmetry input_img input_width
        input_height verbose nb_tries =
      { out := CallOut.ok ((sampleLoop
            (overlapping_run engine input_img input_width input_height
              periodic_input periodic_output height width symmetry ground N)
            "Failed to generate!" verbose nb_tries nb_samples seed
            { height := 0, width := 0, data := [] }).results_vec),
        logs := (if verbose then ["Started!"] else []) ++
          (sampleLoop
            (overlapping_run engine input_img input_width input_height
              periodic_input periodic_output height width symmetry ground N)
            "Failed to generate!" verbose nb_tries nb_samples seed
            { height := 0, width := 0, data := [] }).logs,
        attempts := (sampleLoop
            (overlapping_run engine input_img input_width input_height
              periodic_input periodic_output height width symmetry ground N)
            "Failed to generate!" verbose nb_tries nb_samples seed
            { height := 0, width := 0, data := [] }).attempts } := by
  have hg2 : ¬((array2d_from_vector input_img input_width input_height).width = 0 ∧
      (array2d_from_vector input_img input_width input_height).height = 0) := by
    simpa [array2d_from_vector] using hg
  simp only [read_overlapping_instance]
  rw [if_neg hg2]
  rfl

theorem read_simpletiled_unfold (engine : TilingEngine) (seed : Nat) (width : Nat)
    (height : Nat) (nb_samples : Nat) (periodic_output : Bool) (verbose : Bool)
    (nb_tries : Nat) (pytiles : List PyTile) (neighbors : List Neighbor)
    (tiles0 : List Tile) (hb : build_tiles pytiles = Except.ok tiles0) :
    read_simpletiled_instance engine seed width height nb_samples periodic_output
        verbose nb_tries pytiles neighbors =
      { out := CallOut.ok ((sampleLoop
            (tiled_run engine pytiles neighbors height width periodic_output)
            "Failed!" verbose 10 nb_samples seed
            { height := 0, width := 0, data := [] }).results_vec),
        logs := (if verbose then ["Started!"] else []) ++
          (sampleLoop
            (tiled_run engine pytiles neighbors height width periodic_output)
            "Failed!" verbose 10 nb_samples seed
            { height := 0, width := 0, data := [] }).logs,
        attempts := (sampleLoop
            (tiled_run engine pytiles neighbors height width periodic_output)
            "Failed!" verbose 10 nb_samples seed
            { height := 0, width := 0, data := [] }).attempts } := by
  have ht : (build_tiles pytiles).toOption.getD [] = tiles0 := by
    rw [hb]; rfl
  simp only [read_simpletiled_instance, hb]
  unfold tiled_run
  rw [ht]

/-- An engine whose every run fails (returns the 0 by 0 grid); used as a
concrete instance in the witnesses below. -/
def failTileEngine : TilingEngine := fun _ _ _ _ _ _ =>
  { height := 0, width := 0, data := [] }

/-- An engine whose every run succeeds with a 1 by 1 grid; used as a concrete
instance in the witnesses below. -/
def okTileEngine : TilingEngine := fun _ _ _ _ _ _ =>
  { height := 1, width := 1, data := [7] }

/-- An overlapping engine whose every run fails; used as a concrete instance
in the witnesses below. -/
def failOverEngine : OverlappingEngine := fun _ _ _ =>
  { height := 0, width := 0, data := [] }

/-- An overlapping engine whose every run succeeds with a 1 by 1 grid; used as
a concrete instance in the witnesses below. -/
def okOverEngine : OverlappingEngine := fun _ _ _ =>
  { height := 1, width := 1, data := [9] }

/-- Claim C1: for a fixed tuple of arguments, two runs of run_wfc_cpp return
identical output vectors: the returned value does not depend on the
environment (clock readings, OS entropy) outside the arguments.  The engines
are the same deterministic functions on both sides, as the spec requires of
the WFC core. -/
theorem run_wfc_cpp_deterministic (env1 env2 : Env) (oEngine : OverlappingEngine)
    (tEngine : TilingEngine) (seed : Nat) (width : Nat) (height : Nat)
    (sample_type : Int) (periodic_output : Bool) (N : Nat)
    (periodic_input : Bool) (ground : Bool) (nb_samples : Nat) (symmetry : Nat)
    (input_img : List Color) (input_width : Nat) (input_height : Nat)
    (verbose : Bool) (nb_tries : Nat) (tiles : List PyTile)
    (neighbors : List Neighbor) :
    (run_wfc_cpp env1 oEngine tEngine seed width height sample_type
        periodic_output N periodic_input ground nb_samples symmetry input_img
        input_width input_height verbose nb_tries tiles neighbors).out =
      (run_wfc_cpp env2 oEngine tEngine seed width height sample_type
        periodic_output N periodic_input ground nb_samples symmetry input_img
        input_width input_height verbose nb_tries tiles neighbors).out := by
  unfold run_wfc_cpp
  by_cases h0 : sample_type = 0 <;> by_cases h1 : sample_type = 1 <;>
    simp [h0, h1, with_elapsed_out]

/-- Claim C2 (evaluation at the failing input): increment_seed is not
(s + 1) mod 2 to the 32: at s = 4294967294 = 2 to the 32 minus 2 the code
already wraps to 0, although (s + 1) mod 2 to the 32 is 4294967295.  The
comparison in the source is seed < max - 1, though its own comment says the
seed is increased whenever it is below the maximum unsigned int. -/
theorem increment_seed_off_by_one :
    increment_seed 4294967293 = 4294967294 ∧
    increment_seed 4294967294 = 0 ∧
    increment_seed 4294967295 = 0 ∧
    (4294967294 + 1) % 2 ^ 32 = 4294967295 ∧
    increment_seed 4294967294 ≠ (4294967294 + 1) % 2 ^ 32 := by
  refine ⟨by decide, by decide, by decide, by decide, by decide⟩

/-- Claim C5: run_wfc_cpp dispatches on sample_type: 0 runs the tiled
front-end and 1 runs the overlapping front-end (each followed by the timing
line on a normal return), while every other value throws the usage error with
no output, no log lines and no samples attempted. -/
theorem sample_type_dispatch (env : Env) (oEngine : OverlappingEngine)
    (tEngine : TilingEngine) (seed : Nat) (width : Nat) (height : Nat)
    (sample_type : Int) (periodic_output : Bool) (N : Nat)
    (periodic_input : Bool) (ground : Bool) (nb_samples : Nat) (symmetry : Nat)
    (input_img : List Color) (input_width : Nat) (input_height : Nat)
    (verbose : Bool) (nb_tries : Nat) (tiles : List PyTile)
    (neighbors : List Neighbor) :
    (sample_type ≠ 0 → sample_type ≠ 1 →
      run_wfc_cpp env oEngine tEngine seed width height sample_type
          periodic_output N periodic_input ground nb_samples symmetry input_img
          input_width input_height verbose nb_tries tiles neighbors =
        { out := CallOut.thrown "choose 0 (simpletiled) or 1 (overlapping) on sample_type",
          logs := [], attempts := [] }) ∧
    run_wfc_cpp env oEngine tEngine seed width height 0 periodic_output N
        periodic_input ground nb_samples symmetry input_img input_width
        input_height verbose nb_tries tiles neighbors =
      with_elapsed env verbose
        (read_simpletiled_instance tEngine seed width height nb_samples
          periodic_output verbose nb_tries tiles neighbors) ∧
    run_wfc_cpp env oEngine tEngine seed width height 1 periodic_output N
        periodic_input ground nb_samples symmetry input_img input_width
        input_height verbose nb_tries tiles neighbors =
      with_elapsed env verbose
        (read_overlapping_instance oEngine seed width height periodic_output N
          periodic_input ground nb_samples symmetry input_img input_width
          input_height verbose nb_tries) := by
  refine ⟨fun h0 h1 => ?_, ?_, ?_⟩
  · simp [run_wfc_cpp, h0, h1]
  · simp [run_wfc_cpp]
  · norm_num [run_wfc_cpp]

/-- Witness for the dispatch claim: at the concrete sample_type 2 the call
throws the usage error. -/
theorem sample_type_dispatch_witness :
    (2 : Int) ≠ 0 ∧ (2 : Int) ≠ 1 ∧
    run_wfc_cpp { startTime := 0, endTime := 0, osRandom := 0 } failOverEngine
        failTileEngine 42 1 1 2 false 2 false false 1 1 [] 0 0 false 1 [] [] =
      { out := CallOut.thrown "choose 0 (simpletiled) or 1 (overlapping) on sample_type",
        logs := [], attempts := [] } :=
  ⟨by decide, by decide,
    (sample_type_dispatch { startTime := 0, endTime := 0, osRandom := 0 }
        failOverEngine failTileEngine 42 1 1 2 false 2 false false 1 1 [] 0 0
        false 1 [] []).1 (by decide) (by decide)⟩

/-- Claim C7 (evaluation at the failing input): a tile whose symmetry string
is Q makes to_symmetry throw the descriptive message, and because
read_simpletiled_instance is declared noexcept in the source, the call ends
in std::terminate (the terminated outcome, before any sample is attempted)
instead of the exception propagating out of read_simpletiled_instance to the
caller. -/
theorem invalid_symmetry_terminates :
    to_symmetry "Q" = Except.error "Qis an invalid Symmetry" ∧
    read_simpletiled_instance failTileEngine 42 2 2 1 false false 1
        [{ tile := [], size := 1, name := "a", symmetry := "Q", weight := 1 }] [] =
      { out := CallOut.terminated "Qis an invalid Symmetry",
        logs := [], attempts := [] } := by
  exact ⟨rfl, rfl⟩

/-- Claim C3: the tiled path performs at most 10 tries per sample whatever
nb_tries is, the overlapping path performs at most nb_tries tries per sample,
and in both paths every try of a sample except possibly the last one failed:
the inner loop stops at the first successful try. -/
theorem inner_retry_bounds (tEngine : TilingEngine) (oEngine : OverlappingEngine)
    (seed : Nat) (width : Nat) (height : Nat) (nb_samples : Nat)
    (periodic_output : Bool) (verbose : Bool) (nb_tries : Nat)
    (pytiles : List PyTile) (neighbors : List Neighbor) (N : Nat)
    (periodic_input : Bool) (ground : Bool) (symmetry : Nat)
    (input_img : List Color) (input_width : Nat) (input_height : Nat) :
    (∀ t ∈ (read_simpletiled_instance tEngine seed width height nb_samples
        periodic_output verbose nb_tries pytiles neighbors).attempts,
      t.length ≤ 10 ∧
        t.dropLast.all (fun s =>
          !(succeeded (tiled_run tEngine pytiles neighbors height width
            periodic_output s))) = true) ∧
    (∀ t ∈ (read_overlapping_instance oEngine seed width height periodic_output
        N periodic_input ground nb_samples symmetry input_img input_width
        input_height verbose nb_tries).attempts,
      t.length ≤ nb_tries ∧
        t.dropLast.all (fun s =>
          !(succeeded (overlapping_run oEngine input_img input_width
            input_height periodic_input periodic_output height width symmetry
            ground N s))) = true) := by
  constructor
  · intro t ht
    cases hb : build_tiles pytiles with
    | error e => simp [read_simpletiled_instance, hb] at ht
    | ok tiles0 =>
        rw [read_simpletiled_unfold tEngine seed width height nb_samples
          periodic_output verbose nb_tries pytiles neighbors tiles0 hb] at ht
        exact sampleLoop_tries _ _ _ _ _ _ _ t ht
  · intro t ht
    by_cases hg : input_width = 0 ∧ input_height = 0
    · simp [read_overlapping_instance, array2d_from_vector, hg] at ht
    · rw [read_overlapping_unfold oEngine seed width height periodic_output N
        periodic_input ground nb_samples symmetry input_img input_width
        input_height verbose nb_tries hg] at ht
      exact sampleLoop_tries _ _ _ _ _ _ _ t ht

/-- Witness for the retry-bound claim: with engines succeeding at once, the
single trace of the single sample is the one-element seed list. -/
theorem inner_retry_bounds_witness :
    (([42] : List Nat).length ≤ 10 ∧
      ([42] : List Nat).dropLast.all (fun s =>
        !(succeeded (tiled_run okTileEngine [] [] 2 2 false s))) = true) ∧
    (([42] : List Nat).length ≤ 1 ∧
      ([42] : List Nat).dropLast.all (fun s =>
        !(succeeded (overlapping_run okOverEngine [5] 1 1 false false 2 2 1
          false 2 s))) = true) :=
  ⟨(inner_retry_bounds okTileEngine okOverEngine 42 2 2 1 false false 1 [] []
      2 false false 1 [5] 1 1).1 [42] (by decide),
   (inner_retry_bounds okTileEngine okOverEngine 42 2 2 1 false false 1 [] []
      2 false false 1 [5] 1 1).2 [42] (by decide)⟩

/-- Claim C4: in both paths the returned vector is the concatenation, in
sample order, of the pixel data of the first successful try of each sample
(a sample with no successful try contributes nothing), and the warning line
is printed exactly once for every sample without a successful try. -/
theorem samples_concat_and_warnings (tEngine : TilingEngine)
    (oEngine : OverlappingEngine) (seed : Nat) (width : Nat) (height : Nat)
    (nb_samples : Nat) (periodic_output : Bool) (verbose : Bool)
    (nb_tries : Nat) (pytiles : List PyTile) (neighbors : List Neighbor)
    (tiles0 : List Tile) (N : Nat) (periodic_input : Bool) (ground : Bool)
    (symmetry : Nat) (input_img : List Color) (input_width : Nat)
    (input_height : Nat) :
    (build_tiles pytiles = Except.ok tiles0 →
      (read_simpletiled_instance tEngine seed width height nb_samples
          periodic_output verbose nb_tries pytiles neighbors).out =
        CallOut.ok (((read_simpletiled_instance tEngine seed width height
          nb_samples periodic_output verbose nb_tries pytiles
          neighbors).attempts.map
            (sampleContrib (tiled_run tEngine pytiles neighbors height width
              periodic_output))).flatten) ∧
      (read_simpletiled_instance tEngine seed width height nb_samples
          periodic_output verbose nb_tries pytiles neighbors).logs.count warn_msg =
        (read_simpletiled_instance tEngine seed width height nb_samples
          periodic_output verbose nb_tries pytiles neighbors).attempts.countP
            (fun t => !(t.any (fun s => succeeded (tiled_run tEngine pytiles
              neighbors height width periodic_output s))))) ∧
    (¬(input_width = 0 ∧ input_height = 0) →
      (read_overlapping_instance oEngine seed width height periodic_output N
          periodic_input ground nb_samples symmetry input_img input_width
          input_height verbose nb_tries).out =
        CallOut.ok (((read_overlapping_instance oEngine seed width height
          periodic_output N periodic_input ground nb_samples symmetry input_img
          input_width input_height verbose nb_tries).attempts.map
            (sampleContrib (overlapping_run oEngine input_img input_width
              input_height periodic_input periodic_output height width symmetry
              ground N))).flatten) ∧
      (read_overlapping_instance oEngine seed width height periodic_output N
          periodic_input ground nb_samples symmetry input_img input_width
          input_height verbose nb_tries).logs.count warn_msg =
        (read_overlapping_instance oEngine seed width height periodic_output N
          periodic_input ground nb_samples symmetry input_img input_width
          input_height verbose nb_tries).attempts.countP
            (fun t => !(t.any (fun s => succeeded (overlapping_run oEngine
              input_img input_width input_height periodic_input periodic_output
              height width symmetry ground N s))))) := by
  constructor
  · intro hb
    rw [read_simpletiled_unfold tEngine seed width height nb_samples
      periodic_output verbose nb_tries pytiles neighbors tiles0 hb]
    dsimp only
    have hmain := sampleLoop_main
      (tiled_run tEngine pytiles neighbors height width periodic_output)
      "Failed!" verbose 10 (by decide) nb_samples seed
      { height := 0, width := 0, data := [] } (fun _ => rfl)
    refine ⟨congrArg CallOut.ok hmain.1, ?_⟩
    rw [List.count_append]
    have h0 : List.count warn_msg (if verbose = true then ["Started!"] else []) = 0 := by
      cases verbose <;> decide
    rw [h0, hmain.2]
    omega
  · intro hg
    rw [read_overlapping_unfold oEngine seed width height periodic_output N
      periodic_input ground nb_samples symmetry input_img input_width
      input_height verbose nb_tries hg]
    dsimp only
    have hmain := sampleLoop_main
      (overlapping_run oEngine input_img input_width input_height periodic_input
        periodic_output height width symmetry ground N)
      "Failed to generate!" verbose nb_tries (by decide) nb_samples seed
      { height := 0, width := 0, data := [] } (fun _ => rfl)
    refine ⟨congrArg CallOut.ok hmain.1, ?_⟩
    rw [List.count_append]
    have h0 : List.count warn_msg (if verbose = true then ["Started!"] else []) = 0 := by
      cases verbose <;> decide
    rw [h0, hmain.2]
    omega

/-- Witness for the concatenation-and-warning claim: one failing sample in
each path yields an empty output vector and one warning line. -/
theorem samples_concat_and_warnings_witness :
    ((read_simpletiled_instance failTileEngine 42 2 2 1 false false 1 [] []).out =
      CallOut.ok (((read_simpletiled_instance failTileEngine 42 2 2 1 false
        false 1 [] []).attempts.map
          (sampleContrib (tiled_run failTileEngine [] [] 2 2 false))).flatten) ∧
    (read_simpletiled_instance failTileEngine 42 2 2 1 false false 1 [] []).logs.count warn_msg =
      (read_simpletiled_instance failTileEngine 42 2 2 1 false false 1 [] []).attempts.countP
        (fun t => !(t.any (fun s => succeeded (tiled_run failTileEngine [] [] 2 2 false s))))) ∧
    ((read_overlapping_instance failOverEngine 42 2 2 false 2 false false 1 1
        [5] 1 1 false 2).out =
      CallOut.ok (((read_overlapping_instance failOverEngine 42 2 2 false 2
        false false 1 1 [5] 1 1 false 2).attempts.map
          (sampleContrib (overlapping_run failOverEngine [5] 1 1 false false 2
            2 1 false 2))).flatten) ∧
    (read_overlapping_instance failOverEngine 42 2 2 false 2 false false 1 1
        [5] 1 1 false 2).logs.count warn_msg =
      (read_overlapping_instance failOverEngine 42 2 2 false 2 false false 1 1
        [5] 1 1 false 2).attempts.countP
        (fun t => !(t.any (fun s => succeeded (overlapping_run failOverEngine
          [5] 1 1 false false 2 2 1 false 2 s))))) :=
  ⟨(samples_concat_and_warnings failTileEngine failOverEngine 42 2 2 1 false
      false 1 [] [] [] 2 false false 1 [5] 1 1).1 rfl,
   (samples_concat_and_warnings failTileEngine failOverEngine 42 2 2 1 false
      false 1 [] [] [] 2 false false 1 [5] 1 1).2 (by decide)⟩

/-- Claim C6: in tiled mode a neighbor entry whose left or right tile name is
unknown is silently dropped, and the remaining entries are translated, in
order, to tile-id tuples that keep their orientations: the built list equals
the filter-and-translate formalisation of the spec sentence. -/
theorem neighbors_unknown_dropped (pytiles : List PyTile)
    (neighbors : List Neighbor) :
    build_neighbors_ids (build_tiles_id pytiles) neighbors =
      neighbors_ids_spec pytiles neighbors := by
  induction neighbors with
  | nil => simp [build_neighbors_ids, neighbors_ids_spec]
  | cons n ns ih =>
      simp only [build_neighbors_ids, map_lookup_build_tiles_id]
      cases hl : has_name (pytiles.map PyTile.name) n.left
      · simpa [hl, neighbors_ids_spec, List.filter_cons] using ih
      · cases hr : has_name (pytiles.map PyTile.name) n.right
        · simpa [hl, hr, neighbors_ids_spec, List.filter_cons] using ih
        · simpa [hl, hr, neighbors_ids_spec, List.filter_cons] using ih

/-- Claim C9: the seed variable is not reset between samples: in both paths,
whenever sample i has a nonempty trace, the first try of sample i + 1 runs at
exactly the seed left over from the last try of sample i. -/
theorem seed_persists_across_samples (oEngine : OverlappingEngine)
    (tEngine : TilingEngine) (seed : Nat) (width : Nat) (height : Nat)
    (nb_samples : Nat) (periodic_output : Bool) (verbose : Bool)
    (nb_tries : Nat) (pytiles : List PyTile) (neighbors : List Neighbor)
    (N : Nat) (periodic_input : Bool) (ground : Bool) (symmetry : Nat)
    (input_img : List Color) (input_width : Nat) (input_height : Nat)
    (i : Nat) :
    ((read_overlapping_instance oEngine seed width height periodic_output N
        periodic_input ground nb_samples symmetry input_img input_width
        input_height verbose nb_tries).attempts.getD i [] ≠ [] →
      i + 1 < (read_overlapping_instance oEngine seed width height
        periodic_output N periodic_input ground nb_samples symmetry input_img
        input_width input_height verbose nb_tries).attempts.length →
      ((read_overlapping_instance oEngine seed width height periodic_output N
        periodic_input ground nb_samples symmetry input_img input_width
        input_height verbose nb_tries).attempts.getD (i + 1) []).head? =
        some (((read_overlapping_instance oEngine seed width height
          periodic_output N periodic_input ground nb_samples symmetry input_img
          input_width input_height verbose nb_tries).attempts.getD i
            []).getLastD 0)) ∧
    ((read_simpletiled_instance tEngine seed width height nb_samples
        periodic_output verbose nb_tries pytiles neighbors).attempts.getD i [] ≠ [] →
      i + 1 < (read_simpletiled_instance tEngine seed width height nb_samples
        periodic_output verbose nb_tries pytiles neighbors).attempts.length →
      ((read_simpletiled_instance tEngine seed width height nb_samples
        periodic_output verbose nb_tries pytiles neighbors).attempts.getD
          (i + 1) []).head? =
        some (((read_simpletiled_instance tEngine seed width height nb_samples
          periodic_output verbose nb_tries pytiles neighbors).attempts.getD i
            []).getLastD 0)) := by
  constructor
  · intro hne hlt
    by_cases hg : input_width = 0 ∧ input_height = 0
    · exfalso
      apply hne
      simp [read_overlapping_instance, array2d_from_vector, hg]
    · rw [read_overlapping_unfold oEngine seed width height periodic_output N
        periodic_input ground nb_samples symmetry input_img input_width
        input_height verbose nb_tries hg] at hne hlt ⊢
      dsimp only at hne hlt ⊢
      rcases Nat.eq_zero_or_pos nb_tries with h0 | hpos
      · exfalso
        apply hne
        rw [h0, sampleLoop_attempts_bound_zero]
        exact replicate_getD_nil _ _
      · rw [sampleLoop_attempts_length] at hlt
        exact sampleLoop_chain _ _ _ _ _ _ _ i hpos hlt
  · intro hne hlt
    cases hb : build_tiles pytiles with
    | error e =>
        exfalso
        apply hne
        simp [read_simpletiled_instance, hb]
    | ok tiles0 =>
        rw [read_simpletiled_unfold tEngine seed width height nb_samples
          periodic_output verbose nb_tries pytiles neighbors tiles0 hb] at hne hlt ⊢
        dsimp only at hne hlt ⊢
        rw [sampleLoop_attempts_length] at hlt
        exact sampleLoop_chain _ _ _ _ _ _ _ i (by decide) hlt

/-- Witness for the seed-persistence claim: with an always-failing engine and
two tries per sample, sample 0 tries seeds 42 and 43 and sample 1 starts at
the leftover seed 43. -/
theorem seed_persists_witness :
    (read_overlapping_instance failOverEngine 42 1 1 false 2 false false 2 1
        [5] 1 1 false 2).attempts.getD 0 [] ≠ [] ∧
    ((read_overlapping_instance failOverEngine 42 1 1 false 2 false false 2 1
        [5] 1 1 false 2).attempts.getD (0 + 1) []).head? =
      some (((read_overlapping_instance failOverEngine 42 1 1 false 2 false
        false 2 1 [5] 1 1 false 2).attempts.getD 0 []).getLastD 0) :=
  ⟨by decide,
    (seed_persists_across_samples failOverEngine failTileEngine 42 1 1 2 false
      false 2 [] [] 2 false false 1 [5] 1 1 0).1 (by decide) (by decide)⟩

/-- Claim C10: an input image with exactly one dimension equal to zero does
not trigger the empty-exemplar guard (the guard needs both to be zero): the
call returns normally and the sample loop runs once per requested sample. -/
theorem one_sided_zero_passes_guard (engine : OverlappingEngine) (seed : Nat)
    (width : Nat) (height : Nat) (periodic_output : Bool) (N : Nat)
    (periodic_input : Bool) (ground : Bool) (nb_samples : Nat) (symmetry : Nat)
    (input_img : List Color) (input_width : Nat) (input_height : Nat)
    (verbose : Bool) (nb_tries : Nat) :
    (input_width = 0 ∧ input_height ≠ 0) ∨ (input_width ≠ 0 ∧ input_height = 0) →
    (read_overlapping_instance engine seed width height periodic_output N
        periodic_input ground nb_samples symmetry input_img input_width
        input_height verbose nb_tries).out =
      CallOut.ok ((sampleLoop
        (overlapping_run engine input_img input_width input_height
          periodic_input periodic_output height width symmetry ground N)
        "Failed to generate!" verbose nb_tries nb_samples seed
        { height := 0, width := 0, data := [] }).results_vec) ∧
    (read_overlapping_instance engine seed width height periodic_output N
        periodic_input ground nb_samples symmetry input_img input_width
        input_height verbose nb_tries).attempts.length = nb_samples := by
  intro h
  have hg : ¬(input_width = 0 ∧ input_height = 0) := by
    rcases h with ⟨h1, h2⟩ | ⟨h1, h2⟩ <;> simp [h1, h2]
  rw [read_overlapping_unfold engine seed width height periodic_output N
    periodic_input ground nb_samples symmetry input_img input_width
    input_height verbose nb_tries hg]
  exact ⟨rfl, sampleLoop_attempts_length _ _ _ _ _ _ _⟩

/-- Witness for the one-sided-zero claim: input width 0 and height 1 still
runs the sample loop. -/
theorem one_sided_zero_witness :
    (read_overlapping_instance failOverEngine 42 1 1 false 2 false false 1 1
        [] 0 1 false 1).out =
      CallOut.ok ((sampleLoop
        (overlapping_run failOverEngine [] 0 1 false false 1 1 1 false 2)
        "Failed to generate!" false 1 1 42
        { height := 0, width := 0, data := [] }).results_vec) ∧
    (read_overlapping_instance failOverEngine 42 1 1 false 2 false false 1 1
        [] 0 1 false 1).attempts.length = 1 :=
  one_sided_zero_passes_guard failOverEngine 42 1 1 false 2 false false 1 1 []
    0 1 false 1 (Or.inl ⟨rfl, by decide⟩)

/-- Claim C8: an input image whose two dimensions are zero makes
read_overlapping_instance throw the loading error; the call aborts before
any sample is attempted (no seed is ever passed to the engine) whatever the
pixel vector holds. -/
theorem empty_exemplar_throws (engine : OverlappingEngine) (seed : Nat)
    (width : Nat) (height : Nat) (periodic_output : Bool) (N : Nat)
    (periodic_input : Bool) (ground : Bool) (nb_samples : Nat) (symmetry : Nat)
    (input_img : List Color) (verbose : Bool) (nb_tries : Nat) :
    read_overlapping_instance engine seed width height periodic_output N
        periodic_input ground nb_samples symmetry input_img 0 0 verbose nb_tries =
      { out := CallOut.thrown "Error while loading the map to sample from.",
        logs := if verbose then ["Started!"] else [], attempts := [] } := by
  simp [read_overlapping_instance, array2d_from_vector]

end RunWfc
